import Mathlib

/-!
Verification development for the TEC terminal EPICS client (`TEC.py`).

The definitions below are a shallow embedding of the parts of `TEC.py`
exercised by the properties under examination: the numeric formatting and
parsing used by the editable-field widgets, the `editPV` cursor-relative
step and `write_value` logic, the `setPV` enter/commit and connection
state machine, the `LED` threshold classification, the macro substitution
pass of `parseConfig`, the row/field parsing loop of `parseConfig`
(tracking which PV subscriptions have been created), and the startup
environment-variable check.  Numbers are modelled as rationals; the
concrete values exercised by the theorems are exact decimals, for which
rational and IEEE-double arithmetic agree.
-/

set_option autoImplicit false

unseal Rat.add Rat.sub Rat.mul Rat.inv Rat.ofScientific

deriving instance DecidableEq for Except

namespace TEC

/-! ## String and number helpers (Python `str`/`float`/`int`/format) -/

/-- Does `pat` start the character list `text`? -/
def startsWithL : List Char → List Char → Bool
  | [], _ => true
  | _ :: _, [] => false
  | p :: ps, c :: cs => p = c && startsWithL ps cs

/-- The remainder of `text` after an initial occurrence of `pat`, when
`pat` is a prefix of `text`. -/
def dropPrefixL : List Char → List Char → Option (List Char)
  | [], t => some t
  | _ :: _, [] => none
  | p :: ps, c :: cs => if p = c then dropPrefixL ps cs else none

/-- Does `pat` occur anywhere in `text`? -/
def containsSub (pat : List Char) : List Char → Bool
  | [] => startsWithL pat []
  | c :: rest => startsWithL pat (c :: rest) || containsSub pat rest

/-- Python `pat in text`. -/
def strContains (text pat : String) : Bool :=
  containsSub pat.toList text.toList

/-- Replace every (non-overlapping, left-to-right) occurrence of `pat`
by `rep` in the character list, fuel-bounded by the text length. -/
def replaceFuel : Nat → List Char → List Char → List Char → List Char
  | 0, _, _, t => t
  | _ + 1, _, _, [] => []
  | fuel + 1, pat, rep, c :: rest =>
    if pat = [] then c :: rest
    else
      match dropPrefixL pat (c :: rest) with
      | some remaining => rep ++ replaceFuel fuel pat rep remaining
      | none => c :: replaceFuel fuel pat rep rest

/-- Python `s.replace(pat, rep)` for a nonempty pattern `pat` (the only
way `TEC.py` calls it): every occurrence of `pat` in `s`, scanning left
to right over the whole current string, is replaced by `rep`. -/
def replaceStr (s pat rep : String) : String :=
  String.mk (replaceFuel s.toList.length pat.toList rep.toList s.toList)

/-- Python `s.replace(unit, "")` as used throughout `TEC.py`: with the
empty unit the call is the identity, otherwise every occurrence of the
unit string is removed. -/
def stripUnit (s unit : String) : String :=
  if unit = "" then s else replaceStr s unit ""

/-- Numeric value of a list of decimal digit characters (little support
for Python `int`/`float` digit runs); `0` on the empty list. -/
def digitsVal (cs : List Char) : Nat :=
  cs.foldl (fun a c => 10 * a + (c.toNat - 48)) 0

/-- Split a character list at the first `'.'`, returning the part before
it and, when a dot is present, the part after it. -/
def splitAtDot : List Char → List Char × Option (List Char)
  | [] => ([], none)
  | c :: r =>
    if c = '.' then ([], some r)
    else
      let p := splitAtDot r
      (c :: p.1, p.2)

/-- Python `float(s)` restricted to the character set reachable in the
edit buffers of `TEC.py` (digits, at most one dot, an optional leading
minus sign): `none` models a raised `ValueError`. -/
def parseFloat (s : String) : Option ℚ :=
  let cs := s.toList
  let neg := cs.head? = some '-'
  let cs := if neg then cs.tail else cs
  let p := splitAtDot cs
  match p.2 with
  | none =>
    if cs ≠ [] ∧ cs.all Char.isDigit then
      some (if neg then -(digitsVal cs : ℚ) else (digitsVal cs : ℚ))
    else none
  | some frac =>
    if (p.1 ≠ [] ∨ frac ≠ []) ∧ p.1.all Char.isDigit ∧ frac.all Char.isDigit then
      let v : ℚ := (digitsVal p.1 : ℚ) + (digitsVal frac : ℚ) / (10 : ℚ) ^ frac.length
      some (if neg then -v else v)
    else none

/-- Python `int(s)` restricted to the same character set: an optional
leading minus sign followed by at least one digit. -/
def parseInt (s : String) : Option ℤ :=
  let cs := s.toList
  let neg := cs.head? = some '-'
  let cs := if neg then cs.tail else cs
  if cs ≠ [] ∧ cs.all Char.isDigit then
    some (if neg then -(digitsVal cs : ℤ) else (digitsVal cs : ℤ))
  else none

/-- Floor of a rational as an integer, computably. -/
def qfloor (q : ℚ) : ℤ := Int.fdiv q.num q.den

/-- Round a rational to the nearest integer, ties to even — the rounding
used by Python's fixed-point formatting. -/
def roundHalfEven (q : ℚ) : ℤ :=
  let f := qfloor q
  let r := q - (f : ℚ)
  if r < 1 / 2 then f
  else if r > 1 / 2 then f + 1
  else if f % 2 = 0 then f else f + 1

/-- Left-pad a string with `'0'` up to length `len`. -/
def padZeros (s : String) (len : Nat) : String :=
  String.mk (List.replicate (len - s.length) '0') ++ s

/-- Python `"{:.{}f}".format(x, prec)`: fixed-point rendering with
`prec` fractional digits. -/
def formatFixed (q : ℚ) (prec : Nat) : String :=
  let r := roundHalfEven (q * ((10 ^ prec : Nat) : ℚ))
  let sign := if r < 0 then "-" else ""
  let m := r.natAbs
  if prec = 0 then sign ++ toString m
  else sign ++ toString (m / 10 ^ prec) ++ "." ++ padZeros (toString (m % 10 ^ prec)) prec

/-- Python `10 ** e` for an integer exponent, over the rationals. -/
def pow10 (e : ℤ) : ℚ :=
  if 0 ≤ e then ((10 ^ e.toNat : Nat) : ℚ)
  else 1 / ((10 ^ (-e).toNat : Nat) : ℚ)

/-! ## `editPV`: the editable numeric field widget -/

/-- `editPV.valid_char`: decimal digits, decimal point and negative sign. -/
def valid_char (c : Char) : Bool :=
  c ∈ ("0123456789.-").toList

/-- Outcome of `editPV.write_value` (and of the commit path that calls
it): the field's final text together with the value written to the PV
(`none` when the buffer was reverted and no write was issued), or a
raised `ValueError` from Python `float`. -/
inductive CommitResult where
  | ok (finalText : String) (written : Option ℚ)
  | raise
deriving DecidableEq, Repr

/-- `editPV.write_value`, non-enum branch (`TEC.py` lines 264-275): the
buffers `""`, `"-"`, `"."`, `"-."` revert the display to the PV's
current value at the display precision with no write; any other buffer
is parsed with `float` (raising on failure) and written to the PV. -/
def editPV_write_value (text unit : String) (prec : Nat) (pvValue : ℚ) : CommitResult :=
  if text = "" ∨ text = "-" ∨ text = "." ∨ text = "-." then
    .ok (formatFixed pvValue prec ++ unit) none
  else
    match parseFloat (stripUnit text unit) with
    | some v => .ok text (some v)
    | none => .raise

/-- `editPV.keypress` handling of CURSOR_UP / CURSOR_DOWN in non-enum
mode (`TEC.py` lines 134-219).  `none` models the no-op (`return None`
before any text change or write): cursor past the end of the buffer, or
on the decimal point, or on the minus sign.  Otherwise the new buffer is
rendered and `write_value` is invoked on it.  In the CURSOR_DOWN branch
the source compares the character under the cursor with the integer `1`
(`self.edit_text[p] == 1`), which is always false in Python, so only its
`else` arm is reachable and is the one modelled here. -/
def editPV_step (up : Bool) (text : String) (p : Nat) (prec : Nat) (unit : String)
    (pvValue : ℚ) : Option CommitResult :=
  let cs := text.toList
  match cs[p]? with
  | none => none
  | some c =>
    if c = '.' ∨ c = '-' then none
    else
      match cs.findIdx? (fun ch => ch = '.') with
      | some point_pos =>
        match parseFloat (stripUnit text unit) with
        | none => some .raise
        | some q =>
          let delta : ℚ :=
            if point_pos < p then pow10 (-((p : ℤ) - (point_pos : ℤ)))
            else pow10 (-((p : ℤ) + 1 - (point_pos : ℤ)))
          let newq := if up then q + delta else q - delta
          let newText := formatFixed newq prec ++ unit
          some (editPV_write_value newText unit prec pvValue)
      | none =>
        match parseInt (stripUnit text unit) with
        | none => some .raise
        | some n =>
          let delta : ℤ := 10 ^ (cs.length - p - 1)
          let newn := if up then n + delta else n - delta
          let newText := toString newn ++ unit
          some (editPV_write_value newText unit prec pvValue)

/-! ## `setPV`: enter/commit and connection state machine -/

/-- The mutable state of a `setPV` widget relevant to editing: the
connection flag and edit flag, the displayed text, the configured unit
and display precision, the PV's current value (returned by `pv.get()`)
and the list of values written so far (`pv.put` calls). -/
structure SetPVState where
  conn : Bool
  editing : Bool
  text : String
  unit : String
  prec : Nat
  pvValue : ℚ
  writes : List ℚ
deriving DecidableEq, Repr

/-- The commit path of `setPV.keypress` on the enter key while editing
(`TEC.py` lines 353-373): when the buffer contains a decimal point and
is neither `"."` nor `"-."` the text is first rewritten at the display
precision, then `write_value` runs on the (possibly rewritten) text. -/
def setPV_commit (text unit : String) (prec : Nat) (pvValue : ℚ) : CommitResult :=
  if strContains text "." ∧ text ≠ "." ∧ text ≠ "-." then
    match parseFloat (stripUnit text unit) with
    | some v => editPV_write_value (formatFixed v prec ++ unit) unit prec pvValue
    | none => .raise
  else
    editPV_write_value text unit prec pvValue

/-- `setPV.keypress` on the enter key (`TEC.py` lines 345-387): while
connected, enter toggles between `Viewing` and `Editing`, committing the
buffer on the way back to `Viewing`; while disconnected it only clears
the editing flag.  `none` models an exception escaping from the commit. -/
def setPV_enter (st : SetPVState) : Option SetPVState :=
  if st.conn then
    if st.editing then
      match setPV_commit st.text st.unit st.prec st.pvValue with
      | .raise => none
      | .ok t w =>
        some { st with
          editing := false
          text := t
          writes := st.writes ++ (match w with | some v => [v] | none => []) }
    else
      some { st with editing := true }
  else
    some { st with editing := false }

/-- `setPV.on_connection_change` (`TEC.py` lines 389-399): a disconnect
clears the editing flag and replaces the display with the literal
`"Disconnected"`; no write is issued on either transition. -/
def setPV_on_connection_change (st : SetPVState) (conn : Bool) : SetPVState :=
  if conn then { st with conn := true }
  else { st with conn := false, editing := false, text := "Disconnected" }

/-! ## Edit-buffer reachability under the character filter

`setPV` in the `Editing` state forwards keys to `editPV.keypress`, whose
guards block a second decimal point and a minus sign anywhere but at
position 0, and whose superclass (`urwid.Edit`, the external toolkit)
inserts any character passing `valid_char` at the cursor, deletes the
character under the cursor on delete, and moves the cursor on the arrow
keys. -/

/-- An edit buffer: text and cursor position. -/
structure EditBuf where
  text : List Char
  pos : Nat
deriving DecidableEq, Repr

/-- The text-editing keys of the `Editing` state (cursor up/down perform
numeric steps and are modelled separately by `editPV_step`). -/
inductive EKey where
  | ins (c : Char)
  | del
  | left
  | right
deriving DecidableEq, Repr

/-- One keystroke in the `Editing` state: the guards of
`editPV.keypress` (lines 128-133 and 220-223 of `TEC.py`) followed by
the toolkit's insert/delete/move behaviour. -/
def applyKey (b : EditBuf) (k : EKey) : EditBuf :=
  match k with
  | .left => if b.pos = 0 then b else { b with pos := b.pos - 1 }
  | .right => if b.pos ≥ b.text.length then b else { b with pos := b.pos + 1 }
  | .del =>
    if b.pos < b.text.length then
      { b with text := b.text.take b.pos ++ b.text.drop (b.pos + 1) }
    else b
  | .ins c =>
    if c = '.' ∧ '.' ∈ b.text then b
    else if c = '-' ∧ b.pos ≠ 0 then b
    else if valid_char c then
      { text := b.text.take b.pos ++ [c] ++ b.text.drop b.pos, pos := b.pos + 1 }
    else b

/-- The buffers reachable from a starting buffer through the character
filter. -/
inductive Reachable (start : EditBuf) : EditBuf → Prop where
  | refl : Reachable start start
  | step (b : EditBuf) (k : EKey) : Reachable start b → Reachable start (applyKey b k)

/-! ## `LED`: threshold classification -/

/-- The display categories of the `LED` widget (attribute maps set by
`change_value` and `on_connection_change`). -/
inductive LedColor where
  | red
  | yellow
  | green
  | off
  | disconnected
deriving DecidableEq, Repr

/-- `LED.change_value` (`TEC.py` lines 643-661): the if/elif chain over
red, yellow and green, in the exclude-selection mode (match when the
value is absent from a non-empty set) or the normal mode (match on
membership), defaulting to the off category. -/
def LED_change_value (value : ℤ) (red_values yellow_values green_values : List ℤ)
    (exclude_selection : Bool) : LedColor :=
  if exclude_selection then
    if value ∉ red_values ∧ red_values ≠ [] then .red
    else if value ∉ yellow_values ∧ yellow_values ≠ [] then .yellow
    else if value ∉ green_values ∧ green_values ≠ [] then .green
    else .off
  else
    if value ∈ red_values then .red
    else if value ∈ yellow_values then .yellow
    else if value ∈ green_values then .green
    else .off

/-- Modelled from the spec: whether one threshold set matches a value,
in normal mode (membership) or exclude/invert mode (absence from a
non-empty set). -/
def specSetMatch (value : ℤ) (s : List ℤ) (exclude : Bool) : Bool :=
  if exclude then decide (value ∉ s) && decide (s ≠ []) else decide (value ∈ s)

/-- Modelled from the spec: first-match classification in the fixed
order red, yellow, green, off. -/
def specClassify (value : ℤ) (r y g : List ℤ) (exclude : Bool) : LedColor :=
  if specSetMatch value r exclude then .red
  else if specSetMatch value y exclude then .yellow
  else if specSetMatch value g exclude then .green
  else .off

/-! ## Macro substitution (`parseConfig`, lines 782-796) -/

/-- The `%M<i>` placeholder token. -/
def macroToken (i : Nat) : String := "%M" ++ toString i

/-- One iteration of the macro loop of `parseConfig`: when `%M<i>`
occurs in the current text, first every `%M<i>KS` and then every
remaining `%M<i>` is replaced (the pass-through sentinel `"%S"` puts the
literal `"%S"` for the former and deletes the latter); when `%M<i>` does
not occur, the source prompts interactively and leaves the text
unchanged. -/
def substMacro (text : String) (i : Nat) (value : String) : String :=
  if strContains text (macroToken i) then
    if value = "%S" then
      replaceStr (replaceStr text (macroToken i ++ "KS") "%S") (macroToken i) ""
    else
      replaceStr (replaceStr text (macroToken i ++ "KS") value) (macroToken i) value
  else text

/-- The macro loop: values are consumed in list order, paired with the
1-based indices `%M1`, `%M2`, ..., each substitution rewriting the
entire current text. -/
def parseMacroAux : String → Nat → List String → String
  | t, _, [] => t
  | t, i, v :: rest => parseMacroAux (substMacro t i v) (i + 1) rest

/-- The whole macro-substitution pass over the document text, given the
ordered list of replacement values from the command line. -/
def parseMacro (text : String) (values : List String) : String :=
  parseMacroAux text 1 values

/-! ## `parseConfig`: rows, fields and widget construction
(`TEC.py` lines 800-838) -/

/-- A field declaration from the YAML document, restricted to the
attributes the parsing loop manipulates. -/
structure Field where
  type_ : String
  width : Nat
  pv_name : Option String := none
  device_name : Option String := none
  enable : Option Bool := none
deriving DecidableEq, Repr

/-- The errors the parsing loop can raise: `FieldParseError` (carrying
the offending declaration and the message built from the bad type
string), a `KeyError` on a missing required attribute, and the
`UnboundLocalError` of the header path when no row was processed. -/
inductive ParseErr where
  | fieldErr (f : Field) (message : String)
  | keyErr (key : String)
  | unboundLocal
deriving DecidableEq, Repr

/-- The closed list of recognized widget type tags. -/
def recognizedTypes : List String :=
  ["text", "LED", "getPV", "setPV", "button", "divider"]

/-- Combination of `device_name` and `pv_name` into one fully-qualified
address (`TEC.py` lines 817-819); accessing a missing `pv_name` raises
a `KeyError` in Python. -/
def combineDevice (f : Field) : Except ParseErr Field :=
  match f.device_name with
  | none => .ok f
  | some d =>
    match f.pv_name with
    | some p => .ok { f with pv_name := some (d ++ ":" ++ p), device_name := none }
    | none => .error (.keyErr "pv_name")

/-- The PV subscriptions created when the widget for a field is
constructed (each of `setPV`, `getPV`, `LED` opens one `epics.pv.PV` in
its constructor; `button` opens one only when a `pv_name` is given;
`text` and `divider` open none). -/
def fieldBindings (f : Field) : List String :=
  if f.type_ = "setPV" ∨ f.type_ = "getPV" ∨ f.type_ = "LED" then
    [f.pv_name.getD ""]
  else if f.type_ = "button" then
    match f.pv_name with
    | some p => [p]
    | none => []
  else []

/-- The body of the inner field loop of `parseConfig` for one
declaration: device/PV combination, the type check (raising
`FieldParseError` for an unrecognized tag, before the widget and hence
before any PV subscription for this field is created), the `enable`
skip, and widget construction.  `none` means the field was skipped. -/
def processField (f0 : Field) : Except ParseErr (Option (Nat × Field × List String)) :=
  match combineDevice f0 with
  | .error e => .error e
  | .ok f =>
    if f.type_ ∉ recognizedTypes then
      .error (.fieldErr f ("undefined widget type (" ++ f.type_ ++ ")"))
    else
      match f.enable with
      | some false => .ok none
      | _ => .ok (some (f.width, f, fieldBindings f))

/-- A processed row: the `(width, field)` pairs of its constructed
widgets. -/
abbrev Row := List (Nat × Field)

/-- The inner loop over one row's declarations, returning the PV
subscriptions created before the loop finished (normally or by an
exception) together with the row or the raised error. -/
def processRowAux : List Field → List String × Except ParseErr Row
  | [] => ([], .ok [])
  | f :: rest =>
    match processField f with
    | .error e => ([], .error e)
    | .ok none => processRowAux rest
    | .ok (some (w, f1, fbs)) =>
      let p := processRowAux rest
      (fbs ++ p.1,
        match p.2 with
        | .error e => .error e
        | .ok ws => .ok ((w, f1) :: ws))

/-- The outer loop over rows: accumulates the processed rows, the PV
subscriptions created so far, and the columns list left over from the
most recently processed row (the variable the header path reads). -/
def parsePagesAux : List (List Field) → List String × Except ParseErr (List Row × Option Row)
  | [] => ([], .ok ([], none))
  | r :: rest =>
    match processRowAux r with
    | (bs, .error e) => (bs, .error e)
    | (bs, .ok ws) =>
      let p := parsePagesAux rest
      (bs ++ p.1,
        match p.2 with
        | .error e => .error e
        | .ok (rows, lastCols) => .ok (ws :: rows, some (lastCols.getD ws)))

/-- The value `parseConfig` returns: the full page (a list box over all
rows) or, in header mode, the single columns row. -/
inductive ConfigOutput where
  | page (rows : List Row)
  | headerRow (r : Row)
deriving DecidableEq, Repr

/-- `parseConfig` after macro substitution and YAML loading: the
row/field loop, then either the header path — which reads the last
`columns_list`, raising `UnboundLocalError` when no row was iterated —
or the full-page path.  The first component is the list of PV
subscriptions created before `parseConfig` finished or raised. -/
def parseConfigModel (rows : List (List Field)) (header : Bool) :
    List String × Except ParseErr ConfigOutput :=
  match parsePagesAux rows with
  | (bs, .error e) => (bs, .error e)
  | (bs, .ok (rl, lastCols)) =>
    if header then
      match lastCols with
      | some c => (bs, .ok (.headerRow c))
      | none => (bs, .error .unboundLocal)
    else (bs, .ok (.page rl))

/-- Whether an `Except` value is a success. -/
def exceptOkB {ε α : Type} : Except ε α → Bool
  | .ok _ => true
  | .error _ => false

/-- Whether every row of a document processes without an exception. -/
def rowsOkB (rows : List (List Field)) : Bool :=
  rows.all (fun r => exceptOkB (processRowAux r).2)

/-! ## Startup environment check (`TEC.py` lines 42-50) -/

/-- The stream a diagnostic is written to. -/
inductive OutStream where
  | stdout
  | stderr
deriving DecidableEq, Repr

/-- A process exit: the stream the diagnostic went to, its text, and the
exit code. -/
structure ExitInfo where
  stream : OutStream
  message : String
  code : Nat
deriving DecidableEq, Repr

/-- The exit taken when `TEC_PATH` is unset: Python `print` writes the
diagnostic to standard output, then `os._exit(1)`. -/
def tecUnsetExit : ExitInfo :=
  { stream := .stdout
    message := "(TEC_PATH) environement variable not defined, please define it in your .bashrc file or similar"
    code := 1 }

/-- The module-level `TEC_PATH` lookup: the derived binaries and
documents directories on success, the diagnostic-and-exit otherwise. -/
def TEC_path_check (env : Option String) : Except ExitInfo (String × String) :=
  match env with
  | some p => .ok (p ++ "/bin/", p ++ "/YAML/")
  | none => .error tecUnsetExit

/-- Startup followed by configuration parsing: the environment check
runs at module import time, before any `parseConfig` call, so when it
exits no parsing happens and no PV subscription is created. -/
def startupParse (env : Option String) (rows : List (List Field)) (header : Bool) :
    Except ExitInfo (List String × Except ParseErr ConfigOutput) :=
  match TEC_path_check env with
  | .error e => .error e
  | .ok _ => .ok (parseConfigModel rows header)

/-! ## Claims -/

/-- C1, counterexample: on the buffer `"12.50"` with precision 2, an
increment with the cursor at position 1 produces `"13.50"`, not the
`"22.50"` the claim states, and at position 4 it produces `"12.51"`,
not `"12.60"`. -/
theorem C1_stepUp_counterexample :
    editPV_step true "12.50" 1 2 "" 0 = some (.ok "13.50" (some 13.5)) ∧
    ("13.50" : String) ≠ "22.50" ∧
    editPV_step true "12.50" 4 2 "" 0 = some (.ok "12.51" (some 12.51)) ∧
    ("12.51" : String) ≠ "12.60" := by decide

/-- C1 (amended): on the buffer `"12.50"` with precision 2, the step
increments the digit under the cursor: position 0 yields `"22.50"`,
position 1 yields `"13.50"`, position 3 yields `"12.60"`, position 4
yields `"12.51"` (each immediately writing the new value), and an
increment or decrement with the cursor on the decimal point at position
2 is a no-op with no write. -/
theorem C1_cursor_relative_step :
    editPV_step true "12.50" 0 2 "" 0 = some (.ok "22.50" (some 22.5)) ∧
    editPV_step true "12.50" 1 2 "" 0 = some (.ok "13.50" (some 13.5)) ∧
    editPV_step true "12.50" 3 2 "" 0 = some (.ok "12.60" (some 12.6)) ∧
    editPV_step true "12.50" 4 2 "" 0 = some (.ok "12.51" (some 12.51)) ∧
    editPV_step true "12.50" 2 2 "" 0 = none ∧
    editPV_step false "12.50" 2 2 "" 0 = none := by decide

/-- C3: a disconnect notification while an edit is in progress forces
the editing flag off, sets the display to the literal `"Disconnected"`,
and issues no write. -/
theorem C3_disconnect_discards_edit (st : SetPVState) (_h : st.editing = true) :
    (setPV_on_connection_change st false).editing = false ∧
    (setPV_on_connection_change st false).text = "Disconnected" ∧
    (setPV_on_connection_change st false).writes = st.writes := by
  simp [setPV_on_connection_change]

/-- C3, witness: a concrete editing state, disconnected. -/
theorem C3_disconnect_discards_edit_witness :
    (setPV_on_connection_change
        { conn := true, editing := true, text := "12.50", unit := "", prec := 2,
          pvValue := 0, writes := [] } false).editing = false ∧
    (setPV_on_connection_change
        { conn := true, editing := true, text := "12.50", unit := "", prec := 2,
          pvValue := 0, writes := [] } false).text = "Disconnected" ∧
    (setPV_on_connection_change
        { conn := true, editing := true, text := "12.50", unit := "", prec := 2,
          pvValue := 0, writes := [] } false).writes =
      ({ conn := true, editing := true, text := "12.50", unit := "", prec := 2,
         pvValue := 0, writes := [] } : SetPVState).writes :=
  C3_disconnect_discards_edit _ rfl

/-- C4, counterexample: substituting the pass-through sentinel replaces
`%M1KS` with the two-character literal `"%S"`, not with the single
character `"S"` the claim states. -/
theorem C4_macro_counterexample :
    parseMacro "A %M1KS B %M1 C" ["%S"] = "A %S B  C" ∧
    ("A %S B  C" : String) ≠ "A S B  C" := by decide

/-- C4 (amended): substituting the value `"7"` for index 1 replaces both
`%M1KS` and `%M1` with `"7"`; substituting the pass-through sentinel
replaces `%M1KS` with the literal `"%S"` and `%M1` with the empty
string. -/
theorem C4_macro_substitution :
    parseMacro "A %M1KS B %M1 C" ["7"] = "A 7 B 7 C" ∧
    parseMacro "A %M1KS B %M1 C" ["%S"] = "A %S B  C" := by decide

/-- C7, counterexample: with document `"%M1"` and values
`["%M2", "X"]`, the `%M2` token introduced by the substitution for
index 1 IS replaced when index 2 is processed — the result is `"X"`,
not the `"%M2"` the claim states. -/
theorem C7_macro_counterexample :
    parseMacro "%M1" ["%M2", "X"] = "X" ∧ ("X" : String) ≠ "%M2" := by decide

/-- C7 (amended): indices are processed in ascending order, but each
substitution re-scans the entire current text, including text
introduced by earlier substitutions, so no no-recursive-expansion
guarantee holds.  Witnessed on the model by three instances: the `%M2`
introduced by index 1 is replaced when index 2 is processed
(`"%M1" → "%M2" → "X"`); an introduced `%M23` is corrupted to `"Z3"`
already at index 2, because the raw token `%M2` is a prefix of `%M23`;
and an introduced `%M1` survives, because index 1 was already
processed when it appeared (`"%M2" → "%M1"`). -/
theorem C7_macro_order :
    parseMacro "%M1" ["%M2", "X"] = "X" ∧
    parseMacro "%M1" ["%M23", "Z"] = "Z3" ∧
    parseMacro "%M2" ["A", "%M1"] = "%M1" := by decide

/-- C9, counterexample: the diagnostic for an unset `TEC_PATH` goes to
standard output (Python `print`), not to standard error. -/
theorem C9_startup_counterexample :
    TEC_path_check none = .error tecUnsetExit ∧
    tecUnsetExit.stream ≠ .stderr := by decide

/-- C9 (amended): if the installation-root environment variable is
unset, startup exits with code 1 and a diagnostic written to standard
output, before any configuration parsing or Binding creation. -/
theorem C9_startup_unset (rows : List (List Field)) (header : Bool) :
    startupParse none rows header = .error tecUnsetExit ∧
    tecUnsetExit.code ≠ 0 ∧
    tecUnsetExit.stream = .stdout :=
  ⟨rfl, by decide, rfl⟩

/-- C6: the `LED` if/elif chain agrees with the spec's first-match
classification over the fixed order red, yellow, green, off, where a
set matches on membership in normal mode and on absence from a
non-empty set in exclude mode; in particular value `1` with
red=`{0}`, yellow=`{1}`, green=`{2}` and no inversion is yellow, and
value `5` with inversion and red=`{0}` is red. -/
theorem C6_led_classification :
    (∀ (v : ℤ) (r y g : List ℤ) (e : Bool),
        LED_change_value v r y g e = specClassify v r y g e) ∧
    LED_change_value 1 [0] [1] [2] false = .yellow ∧
    LED_change_value 5 [0] [1] [2] true = .red := by
  refine ⟨fun v r y g e => ?_, by decide, by decide⟩
  cases e <;>
    simp only [LED_change_value, specClassify, specSetMatch, Bool.false_eq_true,
      if_false, if_true, Bool.and_eq_true, decide_eq_true_eq]

/-- A bare buffer (`""`, `"-"`, `"."`, `"-."`) makes `write_value`
revert the display to the PV's value with no write. -/
theorem write_value_bare (t unit : String) (prec : Nat) (pv : ℚ)
    (h : t = "" ∨ t = "-" ∨ t = "." ∨ t = "-.") :
    editPV_write_value t unit prec pv = .ok (formatFixed pv prec ++ unit) none := by
  unfold editPV_write_value
  rw [if_pos h]

/-- A bare buffer skips the enter-commit normalization and reverts. -/
theorem commit_bare (t unit : String) (prec : Nat) (pv : ℚ)
    (h : t = "" ∨ t = "-" ∨ t = "." ∨ t = "-.") :
    setPV_commit t unit prec pv = .ok (formatFixed pv prec ++ unit) none := by
  unfold setPV_commit
  rcases h with rfl | rfl | rfl | rfl <;>
    rw [if_neg (by decide)] <;>
    exact write_value_bare _ _ _ _ (by simp)

/-- A non-bare buffer (empty unit) that `float` cannot parse makes the
enter-commit raise. -/
theorem commit_unparsable (t : String) (prec : Nat) (pv : ℚ)
    (h1 : t ≠ "") (h2 : t ≠ "-") (h3 : t ≠ ".") (h4 : t ≠ "-.")
    (hp : parseFloat t = none) :
    setPV_commit t "" prec pv = .raise := by
  have hstrip : stripUnit t "" = t := by simp [stripUnit]
  unfold setPV_commit
  by_cases hdot : strContains t "." = true ∧ t ≠ "." ∧ t ≠ "-."
  · rw [if_pos hdot, hstrip, hp]
  · rw [if_neg hdot]
    unfold editPV_write_value
    rw [if_neg (by tauto), hstrip, hp]

/-- C2, counterexample: committing the buffer `"12"` (neither empty nor
a bare sign nor a bare decimal point) at display precision 2 leaves the
text `"12"`: it is not rewritten to the fixed-precision `"12.00"` the
claim requires, because the source only normalizes buffers containing a
decimal point. -/
theorem C2_commit_counterexample :
    setPV_enter { conn := true, editing := true, text := "12", unit := "", prec := 2,
                  pvValue := 0, writes := [] }
      = some { conn := true, editing := false, text := "12", unit := "", prec := 2,
               pvValue := 0, writes := [12] } ∧
    ("12" : String) ≠ "12.00" := by decide

/-- C2 (amended): pressing enter while connected and editing always
returns to `Viewing`; the buffer is rewritten at the display precision
exactly when it contains a decimal point and is neither `"."` nor
`"-."`; the parsed value of the (possibly rewritten) buffer is then
written, except for the buffers `""`, `"-"`, `"."`, `"-."`, which
instead revert the display to the PV's current value with no write. -/
theorem C2_commit (st : SetPVState) (hc : st.conn = true) (he : st.editing = true) :
    ((st.text = "" ∨ st.text = "-" ∨ st.text = "." ∨ st.text = "-.") →
      setPV_enter st =
        some { st with
               editing := false
               text := formatFixed st.pvValue st.prec ++ st.unit }) ∧
    (∀ v : ℚ, strContains st.text "." = false → st.text ≠ "" → st.text ≠ "-" →
      parseFloat (stripUnit st.text st.unit) = some v →
      setPV_enter st = some { st with editing := false, writes := st.writes ++ [v] }) ∧
    (∀ v w : ℚ, strContains st.text "." = true → st.text ≠ "." → st.text ≠ "-." →
      parseFloat (stripUnit st.text st.unit) = some v →
      formatFixed v st.prec ++ st.unit ≠ "" →
      formatFixed v st.prec ++ st.unit ≠ "-" →
      formatFixed v st.prec ++ st.unit ≠ "." →
      formatFixed v st.prec ++ st.unit ≠ "-." →
      parseFloat (stripUnit (formatFixed v st.prec ++ st.unit) st.unit) = some w →
      setPV_enter st =
        some { st with
               editing := false
               text := formatFixed v st.prec ++ st.unit
               writes := st.writes ++ [w] }) := by
  refine ⟨fun h4 => ?_, fun v hnc h1 h2 hp => ?_, fun v w hdc h3 h4 hp n1 n2 n3 n4 hq => ?_⟩
  · have hcommit := commit_bare st.text st.unit st.prec st.pvValue h4
    simp [setPV_enter, hc, he, hcommit]
  · have h3 : st.text ≠ "." := by
      intro h
      rw [h] at hnc
      exact absurd hnc (by decide)
    have h4 : st.text ≠ "-." := by
      intro h
      rw [h] at hnc
      exact absurd hnc (by decide)
    have hcommit : setPV_commit st.text st.unit st.prec st.pvValue = .ok st.text (some v) := by
      unfold setPV_commit
      rw [if_neg (by rw [hnc] at *; rintro ⟨hfalse, -⟩; exact absurd hfalse (by simp))]
      unfold editPV_write_value
      rw [if_neg (by tauto)]
      simp [hp]
    simp [setPV_enter, hc, he, hcommit]
  · have hcommit : setPV_commit st.text st.unit st.prec st.pvValue
        = .ok (formatFixed v st.prec ++ st.unit) (some w) := by
      unfold setPV_commit
      rw [if_pos ⟨hdc, h3, h4⟩, hp]
      simp [editPV_write_value, n1, n2, n3, n4, hq]
    simp [setPV_enter, hc, he, hcommit]

/-- C2, witness: committing the buffer `"12.50"` at precision 2 keeps
the normalized text `"12.50"` and writes `12.5`. -/
theorem C2_commit_witness :
    setPV_enter { conn := true, editing := true, text := "12.50", unit := "", prec := 2,
                  pvValue := 0, writes := [] }
      = some { conn := true, editing := false, text := "12.50", unit := "", prec := 2,
               pvValue := 0, writes := [12.5] } := by
  have h := (C2_commit
      { conn := true, editing := true, text := "12.50", unit := "", prec := 2,
        pvValue := 0, writes := [] } rfl rfl).2.2 12.5 12.5
    (by decide) (by decide) (by decide) (by decide)
    (by decide) (by decide) (by decide) (by decide) (by decide)
  rw [h]
  decide

/-- Transport one keystroke along a computed buffer equality. -/
theorem reachable_push {s b b1 : EditBuf} (k : EKey) (h : Reachable s b)
    (e : applyKey b k = b1) : Reachable s b1 :=
  e ▸ Reachable.step b k h

/-- C8, counterexample: the buffer `"--"` is reachable from the
displayed value `"0.00"` through the character filter (delete four
times, insert `'-'`, cursor left, insert `'-'` again — the filter only
blocks a minus sign *away from* position 0), `float` cannot parse it,
and committing it raises instead of reverting. -/
theorem C8_commit_counterexample :
    Reachable { text := "0.00".toList, pos := 0 } { text := "--".toList, pos := 1 } ∧
    parseFloat "--" = none ∧
    setPV_commit "--" "" 2 0 = .raise := by
  refine ⟨?_, by decide, by decide⟩
  have r0 : Reachable ({ text := "0.00".toList, pos := 0 } : EditBuf)
      { text := "0.00".toList, pos := 0 } := Reachable.refl
  have r1 : Reachable ({ text := "0.00".toList, pos := 0 } : EditBuf)
      { text := ".00".toList, pos := 0 } := reachable_push .del r0 (by decide)
  have r2 : Reachable ({ text := "0.00".toList, pos := 0 } : EditBuf)
      { text := "00".toList, pos := 0 } := reachable_push .del r1 (by decide)
  have r3 : Reachable ({ text := "0.00".toList, pos := 0 } : EditBuf)
      { text := "0".toList, pos := 0 } := reachable_push .del r2 (by decide)
  have r4 : Reachable ({ text := "0.00".toList, pos := 0 } : EditBuf)
      { text := "".toList, pos := 0 } := reachable_push .del r3 (by decide)
  have r5 : Reachable ({ text := "0.00".toList, pos := 0 } : EditBuf)
      { text := "-".toList, pos := 1 } := reachable_push (.ins '-') r4 (by decide)
  have r6 : Reachable ({ text := "0.00".toList, pos := 0 } : EditBuf)
      { text := "-".toList, pos := 0 } := reachable_push .left r5 (by decide)
  exact reachable_push (.ins '-') r6 (by decide)

/-- C8 (amended): the defensive revert on commit applies exactly to the
four buffers `""`, `"-"`, `"."`, `"-."`; any other buffer that `float`
cannot parse — such as `"--"`, which is reachable through the character
filter — makes the commit raise a parse error instead of reverting. -/
theorem C8_defensive_commit :
    (∀ (t unit : String) (prec : Nat) (pv : ℚ),
      (t = "" ∨ t = "-" ∨ t = "." ∨ t = "-.") →
      setPV_commit t unit prec pv = .ok (formatFixed pv prec ++ unit) none) ∧
    (∀ (t : String) (prec : Nat) (pv : ℚ),
      t ≠ "" → t ≠ "-" → t ≠ "." → t ≠ "-." →
      parseFloat t = none →
      setPV_commit t "" prec pv = .raise) :=
  ⟨commit_bare, commit_unparsable⟩

/-- C8, witness: the bare buffer `"-"` reverts to the formatted PV
value with no write, while the reachable unparsable buffer `"--"`
raises. -/
theorem C8_defensive_commit_witness :
    setPV_commit "-" "" 2 (3.5 : ℚ) = .ok "3.50" none ∧
    setPV_commit "--" "" 2 0 = .raise := by
  have h1 := C8_defensive_commit.1 "-" "" 2 3.5 (by decide)
  have h2 := C8_defensive_commit.2 "--" 2 0 (by decide) (by decide) (by decide) (by decide)
    (by decide)
  rw [h1, h2]
  refine ⟨?_, rfl⟩
  decide

/-- The inner field loop on `pre ++ f :: post`: when every declaration
of `pre` processes successfully and `f`'s (device-combined) type tag is
unrecognized, the loop raises the `FieldParseError` naming `f` and its
type string, with exactly `pre`'s subscriptions already created. -/
theorem processRowAux_error (pre post : List Field) (f f1 : Field) (bs : List String) (ws : Row)
    (hpre : processRowAux pre = (bs, .ok ws))
    (hcomb : combineDevice f = .ok f1)
    (hbad : f1.type_ ∉ recognizedTypes) :
    processRowAux (pre ++ f :: post)
      = (bs, .error (.fieldErr f1 ("undefined widget type (" ++ f1.type_ ++ ")"))) := by
  have hf : processField f
      = .error (.fieldErr f1 ("undefined widget type (" ++ f1.type_ ++ ")")) := by
    simp [processField, hcomb, hbad]
  induction pre generalizing bs ws with
  | nil =>
    simp only [processRowAux, Prod.mk.injEq] at hpre
    obtain ⟨rfl, -⟩ := hpre
    simp [processRowAux, hf]
  | cons g pre ih =>
    simp only [processRowAux] at hpre
    cases hg : processField g with
    | error e => simp only [hg] at hpre; simp at hpre
    | ok o =>
      cases o with
      | none =>
        simp only [hg] at hpre
        have hrec := ih _ _ hpre
        simp [List.cons_append, processRowAux, hg, hrec]
      | some t =>
        obtain ⟨w, f2, fbs⟩ := t
        simp only [hg] at hpre
        cases hp2 : (processRowAux pre).2 with
        | error e => simp only [hp2] at hpre; simp at hpre
        | ok ws2 =>
          simp only [hp2, Prod.mk.injEq] at hpre
          obtain ⟨hbs, -⟩ := hpre
          have hpre2 : processRowAux pre = ((processRowAux pre).1, .ok ws2) := by
            rw [← hp2]
          have hrec := ih _ _ hpre2
          simp [List.cons_append, processRowAux, hg, hrec, ← hbs]

/-- C5 (amended): an unrecognized field type tag makes parsing fail
with a `FieldParseError` naming the offending (device-combined)
declaration and the bad type string, before any Binding is created for
that declaration or any later one — but the Bindings of the fields
declared earlier in the document have already been created when the
error is raised. -/
theorem C5_unknown_type (pre post : List Field) (f f1 : Field) (bs : List String) (ws : Row)
    (hpre : processRowAux pre = (bs, .ok ws))
    (hcomb : combineDevice f = .ok f1)
    (hbad : f1.type_ ∉ recognizedTypes) :
    parseConfigModel [pre ++ f :: post] false
      = (bs, .error (.fieldErr f1 ("undefined widget type (" ++ f1.type_ ++ ")"))) := by
  have h := processRowAux_error pre post f f1 bs ws hpre hcomb hbad
  simp [parseConfigModel, parsePagesAux, h]

/-- C5, witness: a two-field row whose first field is a valid `setPV`
and whose second has the unknown type `"bogus"`. -/
theorem C5_unknown_type_witness :
    parseConfigModel
        [[{ type_ := "setPV", width := 10, pv_name := some "P1" },
          { type_ := "bogus", width := 5, pv_name := some "P2" }]] false
      = (["P1"],
         .error (.fieldErr { type_ := "bogus", width := 5, pv_name := some "P2" }
           ("undefined widget type (" ++ "bogus" ++ ")"))) :=
  C5_unknown_type
    [{ type_ := "setPV", width := 10, pv_name := some "P1" }] []
    { type_ := "bogus", width := 5, pv_name := some "P2" }
    { type_ := "bogus", width := 5, pv_name := some "P2" }
    ["P1"] [(10, { type_ := "setPV", width := 10, pv_name := some "P1" })]
    (by decide) (by decide) (by decide)

/-- C5, counterexample: in that same document, at the moment the error
is raised, the Binding for the earlier `setPV` field (`"P1"`) has
already been created — the claim's "before any Binding has been
created for any field in the document" is false. -/
theorem C5_parse_counterexample :
    (parseConfigModel
        [[{ type_ := "setPV", width := 10, pv_name := some "P1" },
          { type_ := "bogus", width := 5, pv_name := some "P2" }]] false).1 = ["P1"] ∧
    (parseConfigModel
        [[{ type_ := "setPV", width := 10, pv_name := some "P1" },
          { type_ := "bogus", width := 5, pv_name := some "P2" }]] false).2
      = .error (.fieldErr { type_ := "bogus", width := 5, pv_name := some "P2" }
          "undefined widget type (bogus)") ∧
    (["P1"] : List String) ≠ [] := by decide

set_option maxRecDepth 4000 in
/-- The outer row loop on `init ++ [lastRow]`: when every row processes
successfully, the leftover `columns_list` is the one built from the
last row. -/
theorem parsePagesAux_last (init : List (List Field)) (lastRow : List Field)
    (lbs : List String) (lws : Row)
    (hinit : rowsOkB init = true)
    (hlast : processRowAux lastRow = (lbs, .ok lws)) :
    ∃ bs rl, parsePagesAux (init ++ [lastRow]) = (bs, .ok (rl, some lws)) := by
  induction init with
  | nil =>
    refine ⟨lbs, [lws], ?_⟩
    rw [List.nil_append, parsePagesAux, hlast]
    simp [parsePagesAux]
  | cons r init ih =>
    simp only [rowsOkB, List.all_cons, Bool.and_eq_true] at hinit
    obtain ⟨hr0, hinit2⟩ := hinit
    obtain ⟨bs2, rl2, hrec⟩ := ih hinit2
    cases hpr2 : (processRowAux r).2 with
    | error e => rw [hpr2] at hr0; simp [exceptOkB] at hr0
    | ok rws =>
      have hpr : processRowAux r = ((processRowAux r).1, .ok rws) := by rw [← hpr2]
      refine ⟨(processRowAux r).1 ++ bs2, rws :: rl2, ?_⟩
      rw [List.cons_append, parsePagesAux, hpr]
      simp [hrec]

/-- C10: in header mode, a document with no rows makes parsing fail
with the `UnboundLocalError` of the unassigned `columns_list`, and a
document whose rows all process successfully yields exactly the row
built from its last row — all earlier rows are discarded from the
output. -/
theorem C10_header_last_row :
    parseConfigModel [] true = ([], .error .unboundLocal) ∧
    ∀ (init : List (List Field)) (lastRow : List Field) (lbs : List String) (lws : Row),
      rowsOkB init = true → processRowAux lastRow = (lbs, .ok lws) →
      (parseConfigModel (init ++ [lastRow]) true).2 = .ok (.headerRow lws) := by
  refine ⟨by decide, fun init lastRow lbs lws hinit hlast => ?_⟩
  obtain ⟨bs, rl, h⟩ := parsePagesAux_last init lastRow lbs lws hinit hlast
  simp [parseConfigModel, h]

/-- C10, witness: a two-row header document yields only the second
row's widgets. -/
theorem C10_header_last_row_witness :
    (parseConfigModel
        [[{ type_ := "text", width := 4 }], [{ type_ := "divider", width := 6 }]] true).2
      = .ok (.headerRow [(6, { type_ := "divider", width := 6 })]) :=
  C10_header_last_row.2 [[{ type_ := "text", width := 4 }]]
    [{ type_ := "divider", width := 6 }]
    [] [(6, { type_ := "divider", width := 6 })] (by decide) (by decide)

end TEC
